import Mathlib

/-!
Verification development for the lldb host-file abstraction layer
(`lldb/include/lldb/Host/File.h`): the `File` base class and its
`NativeFile` implementation, which wrap a raw OS file descriptor and/or
a buffered `FILE*` stream.

Only the header is available as source; the method bodies live in
`File.cpp`, which is not part of the source tree here.  Definitions whose
body is absent from the source are modelled from the specification and
are marked `Modelled from the spec:` in their doc comment.  Everything
declared inline in the header (the `OpenOptions` constants, the
constructors, `IsValid`, `DescriptorIsValid`, `StreamIsValid`) is
translated directly from the header.
-/

/-- `lldb::LazyBool` (declared in `lldb-enumerations.h`, outside this tree):
a tri-state used for the lazily resolved classification caches. -/
inductive LazyBool where
  | eLazyBoolCalculate
  | eLazyBoolNo
  | eLazyBoolYes
deriving DecidableEq, Repr

/-- Error taxonomy of the layer: `Unsupported`, `InvalidHandle`,
`IOFailure` (carrying the OS error code), `InvalidArgument`. -/
inductive FileError where
  | unsupported
  | invalidHandle
  | ioFailure (errno : Nat)
  | invalidArgument
deriving DecidableEq, Repr

/-- Modelled from the spec: the value of `File::kInvalidDescriptor`
(defined in `File.cpp`, absent from the tree); the spec fixes the
invalid-descriptor sentinel as conventionally -1. -/
def kInvalidDescriptor : Int := -1

/-- Modelled from the spec: the value of `File::kInvalidStream`
(defined in `File.cpp`, absent from the tree): the null stream.  A
`FILE*` is modelled as `Option Nat`; `none` is the null pointer. -/
def kInvalidStream : Option Nat := none

/-- `File::OpenOptions::eOpenOptionRead` = `(1u << 0)`. -/
def eOpenOptionRead : Nat := 1 <<< 0

/-- `File::OpenOptions::eOpenOptionWrite` = `(1u << 1)`. -/
def eOpenOptionWrite : Nat := 1 <<< 1

/-- `File::OpenOptions::eOpenOptionAppend` = `(1u << 2)`. -/
def eOpenOptionAppend : Nat := 1 <<< 2

/-- `File::OpenOptions::eOpenOptionTruncate` = `(1u << 3)`. -/
def eOpenOptionTruncate : Nat := 1 <<< 3

/-- `File::OpenOptions::eOpenOptionNonBlocking` = `(1u << 4)`. -/
def eOpenOptionNonBlocking : Nat := 1 <<< 4

/-- `File::OpenOptions::eOpenOptionCanCreate` = `(1u << 5)`. -/
def eOpenOptionCanCreate : Nat := 1 <<< 5

/-- `File::OpenOptions::eOpenOptionCanCreateNewOnly` = `(1u << 6)`. -/
def eOpenOptionCanCreateNewOnly : Nat := 1 <<< 6

/-- `File::OpenOptions::eOpenOptionDontFollowSymlinks` = `(1u << 7)`. -/
def eOpenOptionDontFollowSymlinks : Nat := 1 <<< 7

/-- `File::OpenOptions::eOpenOptionCloseOnExec` = `(1u << 8)`. -/
def eOpenOptionCloseOnExec : Nat := 1 <<< 8

/-- `File::DescriptorIsValid(int descriptor)`:
`return descriptor >= 0;` (inline in the header). -/
def descriptorIsValidFn (descriptor : Int) : Bool := decide (descriptor ≥ 0)

/-- The state of a `NativeFile` object: the member variables of
`NativeFile` (descriptor, descriptor ownership, stream, open options,
stream ownership) together with the classification caches inherited
from `File` (`m_is_interactive`, `m_is_real_terminal`,
`m_supports_colors`).  The `FILE*` member is `Option Nat` with `none`
as the null pointer; `OpenOptions` is a `Nat` bitset. -/
structure NativeFile where
  m_descriptor : Int
  m_own_descriptor : Bool
  m_stream : Option Nat
  m_options : Nat
  m_own_stream : Bool
  m_is_interactive : LazyBool
  m_is_real_terminal : LazyBool
  m_supports_colors : LazyBool
deriving DecidableEq, Repr

/-- The `NativeFile()` default constructor: invalid descriptor, not
owned; invalid stream, not owned; empty options.  The `File()` base
constructor sets the three classification caches to
`eLazyBoolCalculate`. -/
def NativeFile.new : NativeFile :=
  { m_descriptor := kInvalidDescriptor
    m_own_descriptor := false
    m_stream := kInvalidStream
    m_options := 0
    m_own_stream := false
    m_is_interactive := .eLazyBoolCalculate
    m_is_real_terminal := .eLazyBoolCalculate
    m_supports_colors := .eLazyBoolCalculate }

/-- The `NativeFile(FILE *fh, bool transfer_ownership)` constructor:
invalid descriptor, not owned; stream `fh` with the given ownership;
empty options (`m_options()` value-initializes the bitset). -/
def NativeFile.ofStream (fh : Option Nat) (transfer_ownership : Bool) : NativeFile :=
  { m_descriptor := kInvalidDescriptor
    m_own_descriptor := false
    m_stream := fh
    m_options := 0
    m_own_stream := transfer_ownership
    m_is_interactive := .eLazyBoolCalculate
    m_is_real_terminal := .eLazyBoolCalculate
    m_supports_colors := .eLazyBoolCalculate }

/-- The `NativeFile(int fd, OpenOptions options, bool transfer_ownership)`
constructor: descriptor `fd` with the given ownership; invalid stream,
not owned; the given options. -/
def NativeFile.ofDescriptor (fd : Int) (options : Nat) (transfer_ownership : Bool) :
    NativeFile :=
  { m_descriptor := fd
    m_own_descriptor := transfer_ownership
    m_stream := kInvalidStream
    m_options := options
    m_own_stream := false
    m_is_interactive := .eLazyBoolCalculate
    m_is_real_terminal := .eLazyBoolCalculate
    m_supports_colors := .eLazyBoolCalculate }

/-- `NativeFile::DescriptorIsValid()`:
`return File::DescriptorIsValid(m_descriptor);`. -/
def NativeFile.descriptorIsValid (f : NativeFile) : Bool :=
  descriptorIsValidFn f.m_descriptor

/-- `NativeFile::StreamIsValid()`: `return m_stream != kInvalidStream;`. -/
def NativeFile.streamIsValid (f : NativeFile) : Bool :=
  decide (f.m_stream ≠ kInvalidStream)

/-- `NativeFile::IsValid()`:
`return DescriptorIsValid() || StreamIsValid();` (inline in the header). -/
def NativeFile.isValid (f : NativeFile) : Bool :=
  f.descriptorIsValid || f.streamIsValid

/-- Modelled from the spec: `File::GetOptionsFromMode` (body in
`File.cpp`, absent from the tree).  Parses a POSIX-style mode string:
`"r"` → Read; `"w"` → Write|CanCreate|Truncate; `"a"` →
Write|CanCreate|Append; a trailing `"+"` adds the complementary
Read/Write flag; unrecognized strings fail `InvalidArgument`. -/
def getOptionsFromMode (mode : String) : Except FileError Nat :=
  if mode = "r" then .ok eOpenOptionRead
  else if mode = "w" then
    .ok (eOpenOptionWrite ||| eOpenOptionCanCreate ||| eOpenOptionTruncate)
  else if mode = "a" then
    .ok (eOpenOptionWrite ||| eOpenOptionCanCreate ||| eOpenOptionAppend)
  else if mode = "r+" then .ok (eOpenOptionRead ||| eOpenOptionWrite)
  else if mode = "w+" then
    .ok (eOpenOptionRead ||| eOpenOptionWrite ||| eOpenOptionCanCreate |||
      eOpenOptionTruncate)
  else if mode = "a+" then
    .ok (eOpenOptionRead ||| eOpenOptionWrite ||| eOpenOptionCanCreate |||
      eOpenOptionAppend)
  else .error .invalidArgument

/-- The host OS environment consumed by the layer (spec section 6): the
OS-primitive collaborator.  `fdResource`/`streamResource` give the
underlying OS resource behind a descriptor or stream (two handles may
wrap the same resource); `releaseOk r` says whether the OS-level
release of resource `r` succeeds; `isattyAns`, `realTerminalAns` and
`colorsAns` are the descriptor-to-terminal query answers; `pread` and
`pwrite` are the positioned primitives (call them with a descriptor, a
byte count and an offset, get the transferred count or an error);
`streamReadAt`/`streamWriteAt` stand for the seek-then-operate sequence
on a stream. -/
structure Host where
  fdResource : Int → Nat
  streamResource : Nat → Nat
  releaseOk : Nat → Bool
  isattyAns : Int → Bool
  realTerminalAns : Int → Bool
  colorsAns : Int → Bool
  pread : Int → Nat → Int → Except FileError Nat
  pwrite : Int → Nat → Int → Except FileError Nat
  streamReadAt : Nat → Nat → Int → Except FileError Nat
  streamWriteAt : Nat → Nat → Int → Except FileError Nat

/-- The fully reset instance state: invalid descriptor and stream,
nothing owned, empty options, all three classification caches back to
`eLazyBoolCalculate`.  This is exactly the default-constructed state. -/
def NativeFile.resetState : NativeFile := NativeFile.new

/-- The release action for the stream slot: if the stream is valid and
owned, one OS-level release of the stream's underlying resource is
performed (the `Bool` records whether that release succeeds). -/
def closeStreamActs (h : Host) (f : NativeFile) : List (Bool × Nat) :=
  match f.m_stream with
  | some s =>
    if f.m_own_stream then [(h.releaseOk (h.streamResource s), h.streamResource s)]
    else []
  | none => []

/-- Whether the descriptor is aliased by an owned stream that wraps the
same underlying resource: then the stream close takes precedence and
the descriptor gets no second OS-level release. -/
def closeFdAliased (h : Host) (f : NativeFile) : Bool :=
  match f.m_stream with
  | some s =>
    f.m_own_stream && decide (h.streamResource s = h.fdResource f.m_descriptor)
  | none => false

/-- The release action for the descriptor slot: if the descriptor is
valid, owned, and not aliased by an owned stream wrapping the same
resource, one OS-level release of its resource is performed. -/
def closeFdActs (h : Host) (f : NativeFile) : List (Bool × Nat) :=
  if f.descriptorIsValid && f.m_own_descriptor && !closeFdAliased h f then
    [(h.releaseOk (h.fdResource f.m_descriptor), h.fdResource f.m_descriptor)]
  else []

/-- All OS-level release actions a `Close()` call performs: the stream
release first (it takes precedence), then the descriptor release. -/
def closeActs (h : Host) (f : NativeFile) : List (Bool × Nat) :=
  closeStreamActs h f ++ closeFdActs h f

/-- The instance state after `Close()`: both slots invalid, nothing
owned, options empty; the classification caches are untouched. -/
def closeCleared (f : NativeFile) : NativeFile :=
  { m_descriptor := kInvalidDescriptor
    m_own_descriptor := false
    m_stream := kInvalidStream
    m_options := 0
    m_own_stream := false
    m_is_interactive := f.m_is_interactive
    m_is_real_terminal := f.m_is_real_terminal
    m_supports_colors := f.m_supports_colors }

/-- Modelled from the spec: `NativeFile::Close` (body in `File.cpp`,
absent from the tree).  Closes the stream if valid and owned, closes
the descriptor if valid and owned — unless the stream was closed and
both wrap the same underlying resource, in which case the stream close
takes precedence and the descriptor gets no second OS-level release.
Attempts every owned release regardless of earlier failures and
returns the first error encountered; afterwards the instance is fully
invalid and non-owning.  The result is the status, the new instance
state, and the list of OS resources actually released. -/
def NativeFile.close (h : Host) (f : NativeFile) :
    Except FileError Unit × NativeFile × List Nat :=
  let acts := closeActs h f
  let status : Except FileError Unit :=
    match acts.filter (fun a => !a.1) with
    | [] => .ok ()
    | _ :: _ => .error (.ioFailure 1)
  (status, closeCleared f, acts.map (fun a => a.2))

/-- Modelled from the spec: `NativeFile::TakeStreamAndClear` (body in
`File.cpp`, absent from the tree).  If a stream exists, return it and
reset every piece of instance state to the invalid / non-owning /
unresolved initial state; otherwise return the null stream and leave
the instance untouched. -/
def NativeFile.takeStreamAndClear (f : NativeFile) : Option Nat × NativeFile :=
  if f.streamIsValid then (f.m_stream, NativeFile.resetState) else (kInvalidStream, f)

/-- Modelled from the spec: `File::GetIsInteractive` (body in
`File.cpp`, absent from the tree).  If `m_is_interactive` is still
`eLazyBoolCalculate`, query the host environment once, cache the answer
in `m_is_interactive` only, and return it; otherwise return the cached
value with no host query.  The result carries the answer, the new
state, and the number of host queries made. -/
def NativeFile.getIsInteractive (h : Host) (f : NativeFile) :
    Bool × NativeFile × Nat :=
  match f.m_is_interactive with
  | .eLazyBoolCalculate =>
    let v := h.isattyAns f.m_descriptor
    (v, { f with m_is_interactive := if v then .eLazyBoolYes else .eLazyBoolNo }, 1)
  | .eLazyBoolYes => (true, f, 0)
  | .eLazyBoolNo => (false, f, 0)

/-- Modelled from the spec: `File::GetIsRealTerminal` (body in
`File.cpp`, absent from the tree).  Same caching discipline as
`getIsInteractive`, over `m_is_real_terminal` only. -/
def NativeFile.getIsRealTerminal (h : Host) (f : NativeFile) :
    Bool × NativeFile × Nat :=
  match f.m_is_real_terminal with
  | .eLazyBoolCalculate =>
    let v := h.realTerminalAns f.m_descriptor
    (v, { f with m_is_real_terminal := if v then .eLazyBoolYes else .eLazyBoolNo }, 1)
  | .eLazyBoolYes => (true, f, 0)
  | .eLazyBoolNo => (false, f, 0)

/-- Modelled from the spec: `File::GetIsTerminalWithColors` (body in
`File.cpp`, absent from the tree).  Same caching discipline as
`getIsInteractive`, over `m_supports_colors` only. -/
def NativeFile.getIsTerminalWithColors (h : Host) (f : NativeFile) :
    Bool × NativeFile × Nat :=
  match f.m_supports_colors with
  | .eLazyBoolCalculate =>
    let v := h.colorsAns f.m_descriptor
    (v, { f with m_supports_colors := if v then .eLazyBoolYes else .eLazyBoolNo }, 1)
  | .eLazyBoolYes => (true, f, 0)
  | .eLazyBoolNo => (false, f, 0)

/-- Modelled from the spec: the partial-write retry loop inside
`NativeFile::Write` (body in `File.cpp`, absent from the tree).  `prim
i m` is the underlying write primitive's answer on its `i`-th call when
asked for `m` bytes.  The loop calls the primitive until the full
requested count is transferred or an error occurs; a call that
transfers zero bytes with no error is itself treated as an error
(`IOFailure`) to prevent infinite retry.  `written` accumulates the
bytes transferred so far; on success the total is returned. -/
def writeRetryLoopAux (prim : Nat → Nat → Except FileError Nat) :
    Nat → Nat → Nat → Nat → Except FileError Nat
  | 0, _, written, remaining =>
    if remaining = 0 then .ok written else .error (.ioFailure 0)
  | fuel + 1, call, written, remaining =>
    if remaining = 0 then .ok written
    else
      match prim call remaining with
      | .error e => .error e
      | .ok 0 => .error (.ioFailure 0)
      | .ok (k + 1) =>
        writeRetryLoopAux prim fuel (call + 1) (written + (k + 1)) (remaining - (k + 1))

/-- The retry loop entered with `remaining` bytes still to transfer.
Every successful primitive call transfers at least one byte (zero
progress is an error), so `remaining` itself bounds the number of
iterations and serves as the structural fuel of `writeRetryLoopAux`;
the fuel-exhausted branch is unreachable. -/
def writeRetryLoop (prim : Nat → Nat → Except FileError Nat)
    (call : Nat) (written : Nat) (remaining : Nat) : Except FileError Nat :=
  writeRetryLoopAux prim remaining call written remaining

/-- Modelled from the spec: implicit-position `NativeFile::Write(buf,
num_bytes)` (body in `File.cpp`, absent from the tree).  On a closed /
never-valid instance fail `InvalidHandle`; with no writable resource
fail `Unsupported`; otherwise run the partial-write retry loop for the
full requested count. -/
def NativeFile.write (prim : Nat → Nat → Except FileError Nat)
    (f : NativeFile) (num_bytes : Nat) : Except FileError Nat :=
  if !f.isValid then .error .invalidHandle
  else writeRetryLoop prim 0 0 num_bytes

/-- Modelled from the spec: explicit-offset `NativeFile::Read(dst,
num_bytes, offset)` (body in `File.cpp`, absent from the tree).
Prefer the positioned primitive on a descriptor; with only a stream,
serialize seek → operate → restore under the offset lock (the whole
sequence is the host's `streamReadAt`).  On success the returned
`num_bytes` is the transferred count and `offset` has advanced by it;
with no backing resource fail `Unsupported`. -/
def NativeFile.readWithOffset (h : Host) (f : NativeFile)
    (num_bytes : Nat) (offset : Int) : Except FileError (Nat × Int) :=
  if f.descriptorIsValid then
    match h.pread f.m_descriptor num_bytes offset with
    | .error e => .error e
    | .ok n => .ok (n, offset + n)
  else
    match f.m_stream with
    | some s =>
      match h.streamReadAt s num_bytes offset with
      | .error e => .error e
      | .ok n => .ok (n, offset + n)
    | none => .error .unsupported

/-- Modelled from the spec: explicit-offset `NativeFile::Write(src,
num_bytes, offset)` (body in `File.cpp`, absent from the tree), the
write counterpart of `readWithOffset`. -/
def NativeFile.writeWithOffset (h : Host) (f : NativeFile)
    (num_bytes : Nat) (offset : Int) : Except FileError (Nat × Int) :=
  if f.descriptorIsValid then
    match h.pwrite f.m_descriptor num_bytes offset with
    | .error e => .error e
    | .ok n => .ok (n, offset + n)
  else
    match f.m_stream with
    | some s =>
      match h.streamWriteAt s num_bytes offset with
      | .error e => .error e
      | .ok n => .ok (n, offset + n)
    | none => .error .unsupported

/-- A concrete host environment used by the witness theorems: every
release succeeds, every terminal query answers `true`, and every I/O
primitive transfers the full requested count. -/
def hostEx : Host :=
  { fdResource := fun _ => 0
    streamResource := fun _ => 1
    releaseOk := fun _ => true
    isattyAns := fun _ => true
    realTerminalAns := fun _ => true
    colorsAns := fun _ => true
    pread := fun _ n _ => .ok n
    pwrite := fun _ n _ => .ok n
    streamReadAt := fun _ n _ => .ok n
    streamWriteAt := fun _ n _ => .ok n }

/-- C1: the `OpenOptions` flag values are exactly the stated bit
positions — Read = bit 0, Write = bit 1, Append = bit 2, Truncate =
bit 3, NonBlocking = bit 4, CanCreate = bit 5, CanCreateNewOnly =
bit 6, DontFollowSymlinks = bit 7, CloseOnExec = bit 8; each named
flag equals 1 shifted left by its bit index, i.e. `2 ^ index`. -/
theorem openOptions_bit_layout :
    eOpenOptionRead = 2 ^ 0 ∧
    eOpenOptionWrite = 2 ^ 1 ∧
    eOpenOptionAppend = 2 ^ 2 ∧
    eOpenOptionTruncate = 2 ^ 3 ∧
    eOpenOptionNonBlocking = 2 ^ 4 ∧
    eOpenOptionCanCreate = 2 ^ 5 ∧
    eOpenOptionCanCreateNewOnly = 2 ^ 6 ∧
    eOpenOptionDontFollowSymlinks = 2 ^ 7 ∧
    eOpenOptionCloseOnExec = 2 ^ 8 := by
  decide

/-- C10: every `NativeFile` constructor establishes the
single-resource initial invariant — the default constructor leaves
both slots invalid and non-owned with empty options; the stream
constructor leaves the descriptor slot at `kInvalidDescriptor`,
descriptor ownership `false` and options empty; the descriptor
constructor leaves the stream slot at `kInvalidStream` with stream
ownership `false`; and every constructor starts the three
classification tri-states at `eLazyBoolCalculate`. -/
theorem nativeFile_ctor_initial_state :
    (NativeFile.new.m_descriptor = kInvalidDescriptor ∧
     NativeFile.new.m_own_descriptor = false ∧
     NativeFile.new.m_stream = kInvalidStream ∧
     NativeFile.new.m_own_stream = false ∧
     NativeFile.new.m_options = 0 ∧
     NativeFile.new.m_is_interactive = .eLazyBoolCalculate ∧
     NativeFile.new.m_is_real_terminal = .eLazyBoolCalculate ∧
     NativeFile.new.m_supports_colors = .eLazyBoolCalculate) ∧
    (∀ (fh : Option Nat) (own : Bool),
      (NativeFile.ofStream fh own).m_descriptor = kInvalidDescriptor ∧
      (NativeFile.ofStream fh own).m_own_descriptor = false ∧
      (NativeFile.ofStream fh own).m_options = 0 ∧
      (NativeFile.ofStream fh own).m_stream = fh ∧
      (NativeFile.ofStream fh own).m_own_stream = own ∧
      (NativeFile.ofStream fh own).m_is_interactive = .eLazyBoolCalculate ∧
      (NativeFile.ofStream fh own).m_is_real_terminal = .eLazyBoolCalculate ∧
      (NativeFile.ofStream fh own).m_supports_colors = .eLazyBoolCalculate) ∧
    (∀ (fd : Int) (opts : Nat) (own : Bool),
      (NativeFile.ofDescriptor fd opts own).m_stream = kInvalidStream ∧
      (NativeFile.ofDescriptor fd opts own).m_own_stream = false ∧
      (NativeFile.ofDescriptor fd opts own).m_descriptor = fd ∧
      (NativeFile.ofDescriptor fd opts own).m_own_descriptor = own ∧
      (NativeFile.ofDescriptor fd opts own).m_options = opts ∧
      (NativeFile.ofDescriptor fd opts own).m_is_interactive = .eLazyBoolCalculate ∧
      (NativeFile.ofDescriptor fd opts own).m_is_real_terminal = .eLazyBoolCalculate ∧
      (NativeFile.ofDescriptor fd opts own).m_supports_colors = .eLazyBoolCalculate) := by
  refine ⟨⟨rfl, rfl, rfl, rfl, rfl, rfl, rfl, rfl⟩, ?_, ?_⟩
  · intro fh own
    exact ⟨rfl, rfl, rfl, rfl, rfl, rfl, rfl, rfl⟩
  · intro fd opts own
    exact ⟨rfl, rfl, rfl, rfl, rfl, rfl, rfl, rfl⟩

/-- C3: `GetOptionsFromMode` maps `"r"` to Read, `"w"` to
Write|CanCreate|Truncate, `"a"` to Write|CanCreate|Append; a trailing
`"+"` additionally sets the complementary Read/Write flag; and every
unrecognized mode string returns an `InvalidArgument` error. -/
theorem getOptionsFromMode_spec :
    getOptionsFromMode "r" = .ok eOpenOptionRead ∧
    getOptionsFromMode "w" =
      .ok (eOpenOptionWrite ||| eOpenOptionCanCreate ||| eOpenOptionTruncate) ∧
    getOptionsFromMode "a" =
      .ok (eOpenOptionWrite ||| eOpenOptionCanCreate ||| eOpenOptionAppend) ∧
    getOptionsFromMode "r+" = .ok (eOpenOptionRead ||| eOpenOptionWrite) ∧
    getOptionsFromMode "w+" =
      .ok (eOpenOptionRead ||| eOpenOptionWrite ||| eOpenOptionCanCreate |||
        eOpenOptionTruncate) ∧
    getOptionsFromMode "a+" =
      .ok (eOpenOptionRead ||| eOpenOptionWrite ||| eOpenOptionCanCreate |||
        eOpenOptionAppend) ∧
    (∀ mode : String, mode ≠ "r" → mode ≠ "w" → mode ≠ "a" →
      mode ≠ "r+" → mode ≠ "w+" → mode ≠ "a+" →
      getOptionsFromMode mode = .error .invalidArgument) := by
  refine ⟨rfl, rfl, rfl, rfl, rfl, rfl, ?_⟩
  intro mode h1 h2 h3 h4 h5 h6
  simp [getOptionsFromMode, h1, h2, h3, h4, h5, h6]

/-- Witness for C3: the unrecognized mode string `"rw"` fails with
`InvalidArgument`. -/
theorem getOptionsFromMode_witness :
    getOptionsFromMode "rw" = .error .invalidArgument :=
  getOptionsFromMode_spec.2.2.2.2.2.2 "rw" (by decide) (by decide) (by decide)
    (by decide) (by decide) (by decide)

/-- C7: on an instance holding a stream, `TakeStreamAndClear` returns
that stream and resets every piece of instance state — descriptor,
stream, both ownership flags, open options, and all three
classification tri-states — to the invalid / non-owning / unresolved
initial state; on an instance holding no stream it returns the null
stream and mutates nothing. -/
theorem takeStreamAndClear_spec :
    ∀ f : NativeFile,
      (f.m_stream ≠ kInvalidStream →
        f.takeStreamAndClear.1 = f.m_stream ∧
        f.takeStreamAndClear.2.m_descriptor = kInvalidDescriptor ∧
        f.takeStreamAndClear.2.m_stream = kInvalidStream ∧
        f.takeStreamAndClear.2.m_own_descriptor = false ∧
        f.takeStreamAndClear.2.m_own_stream = false ∧
        f.takeStreamAndClear.2.m_options = 0 ∧
        f.takeStreamAndClear.2.m_is_interactive = .eLazyBoolCalculate ∧
        f.takeStreamAndClear.2.m_is_real_terminal = .eLazyBoolCalculate ∧
        f.takeStreamAndClear.2.m_supports_colors = .eLazyBoolCalculate) ∧
      (f.m_stream = kInvalidStream →
        f.takeStreamAndClear = (kInvalidStream, f)) := by
  intro f
  constructor
  · intro hs
    have hv : f.streamIsValid = true := by
      simp [NativeFile.streamIsValid, hs]
    simp [NativeFile.takeStreamAndClear, hv, NativeFile.resetState, NativeFile.new]
  · intro hs
    have hv : f.streamIsValid = false := by
      simp [NativeFile.streamIsValid, hs]
    simp [NativeFile.takeStreamAndClear, hv]

/-- Witness for C7: extraction from a stream-holding instance returns
the stream and resets the state; extraction from the default instance
returns the null stream and changes nothing. -/
theorem takeStreamAndClear_witness :
    (NativeFile.ofStream (some 7) true).takeStreamAndClear.1 =
      (NativeFile.ofStream (some 7) true).m_stream ∧
    NativeFile.new.takeStreamAndClear = (kInvalidStream, NativeFile.new) :=
  ⟨((takeStreamAndClear_spec (NativeFile.ofStream (some 7) true)).1 (by decide)).1,
   (takeStreamAndClear_spec NativeFile.new).2 (by decide)⟩

/-- C8: the three classification tri-states resolve independently —
calling the getter for one of them leaves the cached tri-state fields
of the other two unchanged. -/
theorem tristates_independent :
    ∀ (h : Host) (f : NativeFile),
      ((f.getIsInteractive h).2.1.m_is_real_terminal = f.m_is_real_terminal ∧
       (f.getIsInteractive h).2.1.m_supports_colors = f.m_supports_colors) ∧
      ((f.getIsRealTerminal h).2.1.m_is_interactive = f.m_is_interactive ∧
       (f.getIsRealTerminal h).2.1.m_supports_colors = f.m_supports_colors) ∧
      ((f.getIsTerminalWithColors h).2.1.m_is_interactive = f.m_is_interactive ∧
       (f.getIsTerminalWithColors h).2.1.m_is_real_terminal = f.m_is_real_terminal) := by
  intro h f
  refine ⟨⟨?_, ?_⟩, ⟨?_, ?_⟩, ⟨?_, ?_⟩⟩
  · cases hc : f.m_is_interactive <;> simp [NativeFile.getIsInteractive, hc]
  · cases hc : f.m_is_interactive <;> simp [NativeFile.getIsInteractive, hc]
  · cases hc : f.m_is_real_terminal <;> simp [NativeFile.getIsRealTerminal, hc]
  · cases hc : f.m_is_real_terminal <;> simp [NativeFile.getIsRealTerminal, hc]
  · cases hc : f.m_supports_colors <;> simp [NativeFile.getIsTerminalWithColors, hc]
  · cases hc : f.m_supports_colors <;> simp [NativeFile.getIsTerminalWithColors, hc]

/-- C9: each classification tri-state resolves at most once per
handle — the first getter call makes at most one host query; a second
call on the resulting handle makes zero host queries, returns the same
value (even against a changed host environment `h2`), and leaves the
state unchanged. -/
theorem tristates_resolve_once :
    ∀ (h h2 : Host) (f : NativeFile),
      ((f.getIsInteractive h).2.2 ≤ 1 ∧
       ((f.getIsInteractive h).2.1.getIsInteractive h2).2.2 = 0 ∧
       ((f.getIsInteractive h).2.1.getIsInteractive h2).1 =
         (f.getIsInteractive h).1 ∧
       ((f.getIsInteractive h).2.1.getIsInteractive h2).2.1 =
         (f.getIsInteractive h).2.1) ∧
      ((f.getIsRealTerminal h).2.2 ≤ 1 ∧
       ((f.getIsRealTerminal h).2.1.getIsRealTerminal h2).2.2 = 0 ∧
       ((f.getIsRealTerminal h).2.1.getIsRealTerminal h2).1 =
         (f.getIsRealTerminal h).1 ∧
       ((f.getIsRealTerminal h).2.1.getIsRealTerminal h2).2.1 =
         (f.getIsRealTerminal h).2.1) ∧
      ((f.getIsTerminalWithColors h).2.2 ≤ 1 ∧
       ((f.getIsTerminalWithColors h).2.1.getIsTerminalWithColors h2).2.2 = 0 ∧
       ((f.getIsTerminalWithColors h).2.1.getIsTerminalWithColors h2).1 =
         (f.getIsTerminalWithColors h).1 ∧
       ((f.getIsTerminalWithColors h).2.1.getIsTerminalWithColors h2).2.1 =
         (f.getIsTerminalWithColors h).2.1) := by
  intro h h2 f
  refine ⟨?_, ?_, ?_⟩
  · cases hc : f.m_is_interactive <;>
      simp [NativeFile.getIsInteractive, hc] <;>
      cases ha : h.isattyAns f.m_descriptor <;>
      simp [NativeFile.getIsInteractive, ha]
  · cases hc : f.m_is_real_terminal <;>
      simp [NativeFile.getIsRealTerminal, hc] <;>
      cases ha : h.realTerminalAns f.m_descriptor <;>
      simp [NativeFile.getIsRealTerminal, ha]
  · cases hc : f.m_supports_colors <;>
      simp [NativeFile.getIsTerminalWithColors, hc] <;>
      cases ha : h.colorsAns f.m_descriptor <;>
      simp [NativeFile.getIsTerminalWithColors, ha]

/-- C2: `IsValid()` returns true if and only if the raw descriptor is
valid (`descriptor >= 0`) or the buffered stream is valid (`stream !=
kInvalidStream`); and once both are invalid, no modelled state-changing
operation (close, stream extraction, the classification getters) makes
the instance valid again. -/
theorem isValid_iff_and_permanent :
    (∀ f : NativeFile,
      f.isValid = true ↔ (f.m_descriptor ≥ 0 ∨ f.m_stream ≠ kInvalidStream)) ∧
    (∀ (h : Host) (f : NativeFile), f.isValid = false →
      (f.close h).2.1.isValid = false ∧
      f.takeStreamAndClear.2.isValid = false ∧
      (f.getIsInteractive h).2.1.isValid = false ∧
      (f.getIsRealTerminal h).2.1.isValid = false ∧
      (f.getIsTerminalWithColors h).2.1.isValid = false) := by
  constructor
  · intro f
    simp [NativeFile.isValid, NativeFile.descriptorIsValid, descriptorIsValidFn,
      NativeFile.streamIsValid]
  · intro h f hv
    have hd : f.m_descriptor < 0 := by
      by_contra hc
      simp [NativeFile.isValid, NativeFile.descriptorIsValid, descriptorIsValidFn,
        Int.not_lt.mp hc] at hv
    have hs : f.m_stream = kInvalidStream := by
      by_contra hc
      simp [NativeFile.isValid, NativeFile.streamIsValid, hc] at hv
    refine ⟨?_, ?_, ?_, ?_, ?_⟩
    · simp [NativeFile.close, closeCleared, NativeFile.isValid,
        NativeFile.descriptorIsValid, descriptorIsValidFn,
        NativeFile.streamIsValid, kInvalidDescriptor, kInvalidStream]
    · have hsv : f.streamIsValid = false := by
        simp [NativeFile.streamIsValid, hs]
      simp [NativeFile.takeStreamAndClear, hsv, hv]
    · cases hc : f.m_is_interactive <;>
        simp [NativeFile.getIsInteractive, hc, NativeFile.isValid,
          NativeFile.descriptorIsValid, descriptorIsValidFn,
          NativeFile.streamIsValid, hs] <;>
        omega
    · cases hc : f.m_is_real_terminal <;>
        simp [NativeFile.getIsRealTerminal, hc, NativeFile.isValid,
          NativeFile.descriptorIsValid, descriptorIsValidFn,
          NativeFile.streamIsValid, hs] <;>
        omega
    · cases hc : f.m_supports_colors <;>
        simp [NativeFile.getIsTerminalWithColors, hc, NativeFile.isValid,
          NativeFile.descriptorIsValid, descriptorIsValidFn,
          NativeFile.streamIsValid, hs] <;>
        omega

/-- Witness for C2: the default-constructed instance is invalid, and
stays invalid through close, stream extraction and each classification
getter. -/
theorem isValid_permanent_witness :
    (NativeFile.new.close hostEx).2.1.isValid = false ∧
    NativeFile.new.takeStreamAndClear.2.isValid = false ∧
    (NativeFile.new.getIsInteractive hostEx).2.1.isValid = false ∧
    (NativeFile.new.getIsRealTerminal hostEx).2.1.isValid = false ∧
    (NativeFile.new.getIsTerminalWithColors hostEx).2.1.isValid = false :=
  isValid_iff_and_permanent.2 hostEx NativeFile.new (by decide)

/-- Every release action records exactly the success bit of the OS
release of its resource. -/
theorem closeActs_success_bit (h : Host) (f : NativeFile) :
    ∀ a ∈ closeActs h f, a.1 = h.releaseOk a.2 := by
  intro a ha
  rcases List.mem_append.mp ha with hm | hm
  · revert hm
    unfold closeStreamActs
    cases f.m_stream
    · simp
    · by_cases ho : f.m_own_stream <;> simp [ho] <;> intro h1 <;> simp [h1]
  · revert hm
    unfold closeFdActs
    split
    · intro hm
      simp at hm
      simp [hm]
    · simp

/-- An invalid instance has no release actions: both slots hold no
resource, so `Close()` has nothing to release. -/
theorem closeActs_of_invalid (h : Host) (f : NativeFile)
    (hv : f.isValid = false) : closeActs h f = [] := by
  have hd : f.descriptorIsValid = false := by
    cases hc : f.descriptorIsValid
    · rfl
    · simp [NativeFile.isValid, hc] at hv
  have hs : f.m_stream = none := by
    cases hc : f.m_stream with
    | none => rfl
    | some s =>
      simp [NativeFile.isValid, NativeFile.streamIsValid, hc, kInvalidStream] at hv
  unfold closeActs closeStreamActs closeFdActs
  simp [hs, hd]

/-- The state after `Close()` is invalid. -/
theorem closeCleared_invalid (f : NativeFile) :
    (closeCleared f).isValid = false := by
  simp [closeCleared, NativeFile.isValid, NativeFile.descriptorIsValid,
    descriptorIsValidFn, NativeFile.streamIsValid, kInvalidDescriptor,
    kInvalidStream]

/-- C4: `Close()` is idempotent — on an already-invalid instance it
succeeds and performs no OS-level release; it reports an error only
when some performed release actually fails (if every performed release
succeeds, the status is success); after any `Close()` call the
instance is invalid; and a second `Close()` right after a first one
always succeeds and releases nothing. -/
theorem close_idempotent_spec :
    ∀ (h : Host) (f : NativeFile),
      (f.close h).2.1.isValid = false ∧
      (f.isValid = false → (f.close h).1 = .ok () ∧ (f.close h).2.2 = []) ∧
      ((∀ r ∈ (f.close h).2.2, h.releaseOk r = true) → (f.close h).1 = .ok ()) ∧
      ((f.close h).2.1.close h).1 = .ok () ∧
      ((f.close h).2.1.close h).2.2 = [] := by
  intro h f
  have hsecond : closeActs h (closeCleared f) = [] :=
    closeActs_of_invalid h (closeCleared f) (closeCleared_invalid f)
  refine ⟨closeCleared_invalid f, ?_, ?_, ?_, ?_⟩
  · intro hv
    have hacts := closeActs_of_invalid h f hv
    simp [NativeFile.close, hacts]
  · intro hall
    have hfil : (closeActs h f).filter (fun a => !a.1) = [] := by
      rw [List.filter_eq_nil_iff]
      intro a ha
      have h1 := closeActs_success_bit h f a ha
      have h2 := hall a.2 (by
        simp only [NativeFile.close, List.mem_map]
        exact ⟨a, ha, rfl⟩)
      simp [h1, h2]
    simp [NativeFile.close, hfil]
  · simp [NativeFile.close, hsecond]
  · simp [NativeFile.close, hsecond]

/-- Witness for C4: an instance owning descriptor 3, against a host
where every release succeeds — close succeeds, the closed instance is
invalid, and a second close succeeds releasing nothing. -/
theorem close_idempotent_witness :
    ((NativeFile.ofDescriptor 3 0 true).close hostEx).1 = .ok () ∧
    ((NativeFile.ofDescriptor 3 0 true).close hostEx).2.1.isValid = false ∧
    (((NativeFile.ofDescriptor 3 0 true).close hostEx).2.1.close hostEx).1 =
      .ok () ∧
    (((NativeFile.ofDescriptor 3 0 true).close hostEx).2.1.close hostEx).2.2 =
      [] :=
  ⟨(close_idempotent_spec hostEx (NativeFile.ofDescriptor 3 0 true)).2.2.1
      (by decide),
   (close_idempotent_spec hostEx (NativeFile.ofDescriptor 3 0 true)).1,
   (close_idempotent_spec hostEx (NativeFile.ofDescriptor 3 0 true)).2.2.2.1,
   (close_idempotent_spec hostEx (NativeFile.ofDescriptor 3 0 true)).2.2.2.2⟩

/-- If the underlying primitive never reports more bytes than asked,
the retry loop can only succeed with the full amount: starting from
`written` bytes already transferred and `remaining` still to go, a
success result carries exactly `written + remaining`. -/
theorem writeRetryLoopAux_full (prim : Nat → Nat → Except FileError Nat)
    (hp : ∀ i m k, prim i m = .ok k → k ≤ m) :
    ∀ (fuel call written remaining total : Nat),
      writeRetryLoopAux prim fuel call written remaining = .ok total →
      total = written + remaining := by
  intro fuel
  induction fuel with
  | zero =>
    intro call written remaining total ht
    by_cases hr : remaining = 0 <;> simp [writeRetryLoopAux, hr] at ht
    omega
  | succ fuel ih =>
    intro call written remaining total ht
    by_cases hr : remaining = 0
    · simp [writeRetryLoopAux, hr] at ht
      omega
    · rw [writeRetryLoopAux, if_neg hr] at ht
      cases hpc : prim call remaining with
      | error e => simp [hpc] at ht
      | ok k =>
        cases k with
        | zero => simp [hpc] at ht
        | succ k =>
          simp only [hpc] at ht
          have hk := hp call remaining (k + 1) hpc
          have := ih (call + 1) (written + (k + 1)) (remaining - (k + 1)) total ht
          omega

/-- C5: against a valid handle, implicit-position `Write` of `n` bytes
either returns success reporting exactly `n` bytes transferred or
returns an error — provided the underlying primitive never claims more
progress than requested, success with fewer than `n` bytes is
impossible; and a primitive call that makes zero progress with no
error is itself turned into an `IOFailure` error. -/
theorem write_full_or_error :
    ∀ (prim : Nat → Nat → Except FileError Nat) (f : NativeFile) (n : Nat),
      (∀ i m k, prim i m = .ok k → k ≤ m) →
      (∀ total, f.write prim n = .ok total → total = n) ∧
      (f.isValid = true → 0 < n → prim 0 n = .ok 0 →
        f.write prim n = .error (.ioFailure 0)) := by
  intro prim f n hp
  constructor
  · intro total ht
    unfold NativeFile.write at ht
    split at ht
    · simp at ht
    · have := writeRetryLoopAux_full prim hp n 0 0 n total ht
      omega
  · intro hv hn hz
    have hvb : (!f.isValid) = false := by simp [hv]
    unfold NativeFile.write
    rw [hvb, if_neg (by simp)]
    unfold writeRetryLoop
    cases n with
    | zero => omega
    | succ m =>
      rw [writeRetryLoopAux, if_neg (Nat.succ_ne_zero m), hz]

/-- The underlying write primitive used by the C5 witness: transfers
at most two bytes per call, so a five-byte write takes three calls
through the retry loop. -/
def primChunks : Nat → Nat → Except FileError Nat :=
  fun _ m => .ok (min m 2)

/-- The underlying write primitive that always reports zero progress
with no error. -/
def primStuck : Nat → Nat → Except FileError Nat :=
  fun _ _ => .ok 0

/-- Witness for C5: a five-byte write through the two-byte-chunk
primitive succeeds with exactly five bytes; through the zero-progress
primitive it fails with `IOFailure`. -/
theorem write_full_or_error_witness :
    (NativeFile.ofDescriptor 3 0 true).write primChunks 5 = .ok 5 ∧
    (5 : Nat) = 5 ∧
    (NativeFile.ofDescriptor 3 0 true).write primStuck 5 =
      .error (.ioFailure 0) :=
  ⟨by rfl,
   (write_full_or_error primChunks (NativeFile.ofDescriptor 3 0 true) 5
      (by intro i m k hk; simp [primChunks] at hk; omega)).1 5 (by rfl),
   (write_full_or_error primStuck (NativeFile.ofDescriptor 3 0 true) 5
      (by intro i m k hk; simp [primStuck] at hk; omega)).2
      (by decide) (by decide) (by rfl)⟩

/-- C6: for every successful explicit-offset `Read(dst, num_bytes,
offset)` or `Write(src, num_bytes, offset)`, the returned offset
equals the offset passed in plus the number of bytes actually
transferred. -/
theorem offset_rw_advances :
    ∀ (h : Host) (f : NativeFile) (n : Nat) (off : Int) (k : Nat) (off2 : Int),
      (f.readWithOffset h n off = .ok (k, off2) → off2 = off + k) ∧
      (f.writeWithOffset h n off = .ok (k, off2) → off2 = off + k) := by
  intro h f n off k off2
  constructor
  · intro ht
    unfold NativeFile.readWithOffset at ht
    split at ht
    · split at ht
      · simp at ht
      · simp at ht
        omega
    · split at ht
      · split at ht
        · simp at ht
        · simp at ht
          omega
      · simp at ht
  · intro ht
    unfold NativeFile.writeWithOffset at ht
    split at ht
    · split at ht
      · simp at ht
      · simp at ht
        omega
    · split at ht
      · split at ht
        · simp at ht
        · simp at ht
          omega
      · simp at ht

/-- Witness for C6: reading and writing 4 bytes at offset 10 through a
full-transfer host moves the offset to 14 = 10 + 4. -/
theorem offset_rw_advances_witness :
    ((NativeFile.ofDescriptor 3 0 true).readWithOffset hostEx 4 10 =
        .ok (4, 14) ∧
      (14 : Int) = (10 : Int) + ((4 : Nat) : Int)) ∧
    ((NativeFile.ofStream (some 7) true).writeWithOffset hostEx 4 10 =
        .ok (4, 14) ∧
      (14 : Int) = (10 : Int) + ((4 : Nat) : Int)) :=
  ⟨⟨by rfl,
    (offset_rw_advances hostEx (NativeFile.ofDescriptor 3 0 true) 4 10 4 14).1
      (by rfl)⟩,
   ⟨by rfl,
    (offset_rw_advances hostEx (NativeFile.ofStream (some 7) true) 4 10 4 14).2
      (by rfl)⟩⟩
